import Mathlib

/-!
Verification of the `init`/`run` scoring adapter defined in
`samples/realtime/realtimewebservices.ipynb`.

The notebook defines two Python functions over process-wide globals:

```
def init():                     # (module imports elided)
    global pipeline
    pipeline = PipelineModel.load("housing.model")
    global inputSchema
    inputSchema = azuremlutilities.loadSchema("webserviceschema.json")

def run(inputString):
    input = json.loads(inputString)
    inputRDD = sc.parallelize(input)
    inputDF = spark.createDataFrame(inputRDD, inputSchema, None, False)
    score = pipeline.transform(inputDF)
    return score.collect()[0]["label"]
```

We embed this shallowly: the two globals become an explicit `ScoringState`,
external library behaviour (the persisted artifacts and the opaque Spark
pipeline transform) becomes an `Externals` record over an abstract pipeline
type `P`, Python exceptions become `Except`/`Option Fault` results, and
floating-point feature values are modelled as rationals.  `json.loads` is
embedded as an executable parser for the request grammar (a JSON array of
numeric feature rows), which is the only input shape the scoring contract
covers; any other input is modelled as a parse fault.
-/

namespace RealtimeScoring

/-- Feature and prediction values.  The notebook traffics in JSON numbers and
Spark doubles; we model both as rationals so that evaluation is exact and
decidable. -/
abbrev Value := Rat

/-- One field of a dataset schema: a column name and a type name.
Modelled from the spec: the schema artifact is "a serialized description of
the dataset's column names/types" (its producer `azuremlutilities.saveSchema`
lives in the external `azuremlcli` package, not in this repository's source). -/
structure StructField where
  name : String
  dtype : String
deriving DecidableEq, Repr

/-- A schema is an ordered list of typed columns, as reconstructed by
`azuremlutilities.loadSchema`. -/
abbrev Schema := List StructField

/-- A structured input table: raw positional rows tagged with the schema that
reattaches column semantics to them (the result of `spark.createDataFrame`). -/
structure DataFrame where
  rows : List (List Value)
  schema : Schema
deriving DecidableEq, Repr

/-- An output row of the pipeline transform: named fields, among which the
regression pipeline places the `label` column read by `run`. -/
abbrev ScoredRow := List (String × Value)

/-- Field access `row["field"]`; `none` models a Python `KeyError`. -/
def getField (row : ScoredRow) (field : String) : Option Value :=
  match row with
  | [] => none
  | (k, v) :: rest => if k = field then some v else getField rest field

/-- The faults the adapter can raise.  Each constructor stands for the Python
exception escaping the corresponding line of `init`/`run`; the adapter
contains no handler for any of them. -/
inductive Fault where
  /-- Loading failed in `PipelineModel.load` or `azuremlutilities.loadSchema` on the named
  artifact path. -/
  | artifactLoad (path : String)
  /-- Parsing raised in `json.loads` on a malformed input string. -/
  | jsonParse
  /-- A process-wide global (`pipeline` or `inputSchema`) was unbound. -/
  | nameError (var : String)
  /-- Construction in `spark.createDataFrame` rejected rows during schema verification. -/
  | schemaMismatch
  /-- Scoring in `pipeline.transform` failed on the constructed frame. -/
  | transformFault
  /-- Collecting via `score.collect()` returned no rows, so `[0]` raised `IndexError`. -/
  | emptyResult
  /-- The first output row had no field of the given name (`KeyError`). -/
  | keyError (field : String)
deriving DecidableEq, Repr

/-- The process-wide mutable state of the scoring process: the two globals
bound by `init` (`none` = unbound, as before `init` has run). -/
structure ScoringState (P : Type) where
  pipeline : Option P
  inputSchema : Option Schema
deriving DecidableEq, Repr

/-- The opaque external world the adapter calls into: the persisted model
artifacts by path (`PipelineModel.load`), the persisted schema artifacts by
path (`azuremlutilities.loadSchema`), and the Spark pipeline transform
(`pipeline.transform`), whose output rows are materialised by `collect`.
`none` results model exceptions raised inside the library call. -/
structure Externals (P : Type) where
  modelStore : String → Option P
  schemaStore : String → Option Schema
  transform : P → DataFrame → Option (List ScoredRow)

/-- The artifact path the notebook saves and loads the pipeline under. -/
def modelPath : String := "housing.model"

/-- The artifact path the notebook saves and loads the schema under. -/
def schemaPath : String := "webserviceschema.json"

/-! ## json.loads, restricted to the request grammar

The scoring request is "a JSON-encoded array of feature rows (no column
names, positional only)".  We embed a fuel-indexed recursive-descent parser
for exactly that grammar — arrays of arrays of JSON numbers — returning
`none` (a parse fault) on anything else. -/

/-- Skip JSON whitespace. -/
def skipWs : List Char → List Char
  | [] => []
  | c :: cs => if c = ' ' ∨ c = '\t' ∨ c = '\n' ∨ c = '\r' then skipWs cs else c :: cs

/-- Consume a maximal run of decimal digits, accumulating their value and
count. -/
def parseDigits (acc : Nat) (count : Nat) : List Char → Nat × Nat × List Char
  | [] => (acc, count, [])
  | c :: cs =>
    if c.isDigit then parseDigits (acc * 10 + (c.toNat - 48)) (count + 1) cs
    else (acc, count, c :: cs)

/-- Parse one JSON number (optional sign, integer part, optional fraction,
optional exponent) into an exact rational.  The value is assembled with
`mkRat` over integer arithmetic so that it evaluates by kernel reduction. -/
def parseNumber (cs : List Char) : Option (Value × List Char) :=
  let (neg, cs1) :=
    match cs with
    | '-' :: rest => (true, rest)
    | _ => (false, cs)
  let (ipart, icount, cs2) := parseDigits 0 0 cs1
  if icount = 0 then none
  else
    let (fpart, fcount, cs3) :=
      match cs2 with
      | '.' :: rest => parseDigits 0 0 rest
      | _ => (0, 0, cs2)
    if cs2 ≠ cs3 ∧ fcount = 0 then none
    else
      let afterExp : Option (Int × List Char) :=
        match cs3 with
        | 'e' :: rest | 'E' :: rest =>
          let (eneg, rest1) :=
            match rest with
            | '-' :: r => (true, r)
            | '+' :: r => (false, r)
            | _ => (false, rest)
          let (epart, ecount, rest2) := parseDigits 0 0 rest1
          if ecount = 0 then none
          else some (if eneg then -(epart : Int) else (epart : Int), rest2)
        | _ => some (0, cs3)
      match afterExp with
      | none => none
      | some (e, cs4) =>
        let mnum : Nat := ipart * 10 ^ fcount + fpart
        let num : Int := if e ≥ 0 then (mnum * 10 ^ e.toNat : Nat) else (mnum : Int)
        let den : Nat := if e ≥ 0 then 10 ^ fcount else 10 ^ fcount * 10 ^ (-e).toNat
        some (mkRat (if neg then -num else num) den, cs4)

/-- Parse the elements of a JSON array of numbers after its opening bracket,
one element per unit of fuel. -/
def parseRowElems (fuel : Nat) (cs : List Char) : Option (List Value × List Char) :=
  match fuel with
  | 0 => none
  | fuel' + 1 =>
    match parseNumber (skipWs cs) with
    | none => none
    | some (v, cs1) =>
      match skipWs cs1 with
      | ']' :: rest => some ([v], rest)
      | ',' :: rest =>
        match parseRowElems fuel' rest with
        | none => none
        | some (vs, rest') => some (v :: vs, rest')
      | _ => none

/-- Parse one feature row: a JSON array of numbers. -/
def parseRow (fuel : Nat) (cs : List Char) : Option (List Value × List Char) :=
  match skipWs cs with
  | '[' :: rest =>
    match skipWs rest with
    | ']' :: rest' => some ([], rest')
    | _ => parseRowElems fuel rest
  | _ => none

/-- Parse the rows of the top-level JSON array after its opening bracket. -/
def parseRowsElems (fuel : Nat) (cs : List Char) : Option (List (List Value) × List Char) :=
  match fuel with
  | 0 => none
  | fuel' + 1 =>
    match parseRow fuel cs with
    | none => none
    | some (row, cs1) =>
      match skipWs cs1 with
      | ']' :: rest => some ([row], rest)
      | ',' :: rest =>
        match parseRowsElems fuel' rest with
        | none => none
        | some (rows, rest') => some (row :: rows, rest')
      | _ => none

/-- The embedding of `json.loads` on a scoring request: parse the input string as a JSON array
of numeric feature rows.  `none` models the `ValueError` that `json.loads`
raises on malformed input (and covers non-conforming JSON shapes, which this
contract never supplies). -/
def jsonLoads (s : String) : Option (List (List Value)) :=
  let cs := s.toList
  match skipWs cs with
  | '[' :: rest =>
    match skipWs rest with
    | ']' :: rest' => if skipWs rest' = [] then some [] else none
    | _ =>
      match parseRowsElems cs.length rest with
      | none => none
      | some (rows, rest') => if skipWs rest' = [] then some rows else none
  | _ => none

/-- The embedding of `sc.parallelize`: distributes the parsed rows into an RDD; as data it is
the identity on the row list. -/
def parallelize (rows : List (List Value)) : List (List Value) := rows

/-- Does one positional row satisfy the schema: matching column count, and
each value representable at its column's type (an integer column only admits
whole numbers)? -/
def rowMatchesSchema (schema : Schema) (row : List Value) : Bool :=
  row.length == schema.length &&
    (List.zip schema row).all fun fv =>
      if fv.1.dtype = "int" then fv.2.den == 1 else true

/-- The embedding of `spark.createDataFrame(rows, schema, samplingRatio, verifySchema)`:
tags the rows with the schema; when `verifySchema` is true every row is
checked against the schema and a mismatch raises (`none`), and when it is
false the rows are accepted unchecked. -/
def createDataFrame (rows : List (List Value)) (schema : Schema)
    (samplingRatio : Option Rat) (verifySchema : Bool) : Option DataFrame :=
  let _ := samplingRatio
  if verifySchema then
    if rows.all (fun r => rowMatchesSchema schema r) then some ⟨rows, schema⟩
    else none
  else some ⟨rows, schema⟩

/-- The embedding of `score.collect()`: materialise the transformed frame rows. -/
def collect (rows : List ScoredRow) : List ScoredRow := rows

/-- The notebook's `init()`: load the pipeline artifact into the global
`pipeline`, then the schema artifact into the global `inputSchema`.  The
returned state reflects exactly the assignments executed before any raise;
`some fault` models the exception escaping `init` uncaught. -/
def init {P : Type} (ext : Externals P) (s : ScoringState P) :
    ScoringState P × Option Fault :=
  match ext.modelStore modelPath with
  | none => (s, some (Fault.artifactLoad modelPath))
  | some m =>
    let s1 := { s with pipeline := some m }
    match ext.schemaStore schemaPath with
    | none => (s1, some (Fault.artifactLoad schemaPath))
    | some sch => ({ s1 with inputSchema := some sch }, none)

/-- The notebook's `run(inputString)`: parse the JSON input, parallelize it,
rebuild a structured frame with the loaded schema (verification disabled),
apply the loaded pipeline transform, and return the `label` field of the
first collected row.  The state component is the process state after the
call; `Except.error` models the exception escaping `run` uncaught.  Globals
are read in source order: `inputSchema` at the `createDataFrame` call,
`pipeline` at the `transform` call; an unbound one raises `NameError`. -/
def run {P : Type} (ext : Externals P) (s : ScoringState P) (inputString : String) :
    ScoringState P × Except Fault Value :=
  let result : Except Fault Value :=
    match jsonLoads inputString with
    | none => Except.error Fault.jsonParse
    | some input =>
      let inputRDD := parallelize input
      match s.inputSchema with
      | none => Except.error (Fault.nameError "inputSchema")
      | some inputSchema =>
        match createDataFrame inputRDD inputSchema none false with
        | none => Except.error Fault.schemaMismatch
        | some inputDF =>
          match s.pipeline with
          | none => Except.error (Fault.nameError "pipeline")
          | some pipeline =>
            match ext.transform pipeline inputDF with
            | none => Except.error Fault.transformFault
            | some score =>
              match collect score with
              | [] => Except.error Fault.emptyResult
              | r :: _ =>
                match getField r "label" with
                | none => Except.error (Fault.keyError "label")
                | some v => Except.ok v
  (s, result)

/-- The scoring tail of `run` once parsing succeeded and both globals are
bound: transform, collect, take the first row, read its `label` field. -/
def scoreFrame {P : Type} (ext : Externals P) (p : P) (schema : Schema)
    (rows : List (List Value)) : Except Fault Value :=
  match ext.transform p ⟨rows, schema⟩ with
  | none => Except.error Fault.transformFault
  | some score =>
    match collect score with
    | [] => Except.error Fault.emptyResult
    | r :: _ =>
      match getField r "label" with
      | none => Except.error (Fault.keyError "label")
      | some v => Except.ok v

/-- The notebook's `pipeline.write().overwrite().save(path)`: persist the
in-memory pipeline at `path`, overwriting whatever was there. -/
def savePipeline {P : Type} (p : P) (path : String) (ext : Externals P) :
    Externals P :=
  { ext with modelStore := fun q => if q = path then some p else ext.modelStore q }

/-- A transform is row-wise when it scores each input row independently by a
fixed per-row function.  Modelled from the spec: the pipeline is "a composed
sequence of a feature-formula transform and a regression model", which scores
rows one by one. -/
def RowwiseTransform {P : Type} (ext : Externals P) (p : P)
    (f : List Value → ScoredRow) : Prop :=
  ∀ df : DataFrame, ext.transform p df = some (df.rows.map f)

/-- The literal sample input the notebook's test cell feeds to `run`. -/
def sampleInput : String :=
  "[[0.00632,18.0,2.31,0,0.538,6.575,65.2,4.09,1,296,15.3,4.98,24.0]]"

/-- The feature row encoded by `sampleInput`, as exact rationals. -/
def sampleRow : List Value :=
  [mkRat 632 100000, mkRat 18 1, mkRat 231 100, mkRat 0 1, mkRat 538 1000,
   mkRat 6575 1000, mkRat 652 10, mkRat 409 100, mkRat 1 1, mkRat 296 1,
   mkRat 153 10, mkRat 498 100, mkRat 24 1]

/-! ## Concrete instances used to evaluate the adapter -/

/-- An external world with no stored artifacts and an always-failing
transform. -/
def extEmpty : Externals Unit :=
  { modelStore := fun _ => none
    schemaStore := fun _ => none
    transform := fun _ _ => none }

/-- An external world storing a model artifact but no schema artifact. -/
def extModelOnly : Externals Unit :=
  { extEmpty with modelStore := fun q => if q = modelPath then some () else none }

/-- An external world whose transform succeeds but yields no output rows. -/
def extEmptyOut : Externals Unit :=
  { extEmpty with transform := fun _ _ => some [] }

/-- A two-column schema used in concrete evaluations. -/
def schemaTwo : Schema := [⟨"CRIM", "double"⟩, ⟨"MEDV", "double"⟩]

/-- A concrete per-row scorer: labels each row with its first feature. -/
def headLabel (row : List Value) : ScoredRow :=
  [("label", row.headD (mkRat 0 1))]

/-- An external world with both artifacts stored, whose pipeline scores
row-wise with `headLabel`. -/
def extHead : Externals Unit :=
  { modelStore := fun q => if q = modelPath then some () else none
    schemaStore := fun q => if q = schemaPath then some schemaTwo else none
    transform := fun _ df => some (df.rows.map headLabel) }

/-- The unbound process state, before `init` has ever run. -/
def fresh : ScoringState Unit := ⟨none, none⟩

/-! ## Helper lemmas -/

/-- When `init` returns without a fault, both globals were freshly bound from
the two artifact stores, regardless of the starting state. -/
theorem init_ok {P : Type} (ext : Externals P) (s s' : ScoringState P)
    (h : init ext s = (s', none)) :
    ∃ m sch, ext.modelStore modelPath = some m ∧
      ext.schemaStore schemaPath = some sch ∧ s' = ⟨some m, some sch⟩ := by
  unfold init at h
  cases hm : ext.modelStore modelPath <;> rw [hm] at h
  · simp at h
  · cases hsch : ext.schemaStore schemaPath <;> rw [hsch] at h
    · simp at h
    · exact ⟨_, _, rfl, rfl, by simpa using (congrArg Prod.fst h).symm⟩

/-- In a state where both globals are bound, `run` on an input that parses is
the scoring tail `scoreFrame` on the parsed rows, with the state untouched. -/
theorem run_loaded {P : Type} (ext : Externals P) (p : P) (sch : Schema)
    (i : String) (rows : List (List Value)) (hi : jsonLoads i = some rows) :
    run ext ⟨some p, some sch⟩ i = (⟨some p, some sch⟩, scoreFrame ext p sch rows) := by
  unfold run
  rw [hi]
  rfl

/-! ## The claims -/

/-- C1: for a scoring call whose input parses as a JSON array of one or more
feature rows matching the loaded schema, and whose loaded pipeline scores
rows independently with per-row labels, `run` returns exactly the value of
the "label" field of the first output row of the pipeline transform; an
input sharing the same first row yields the same value (rows after the first
never affect the result), and no error is reported for multi-row input. -/
theorem c1_first_row_label {P : Type} (ext : Externals P) (p : P) (sch : Schema)
    (f : List Value → ScoredRow) (g : List Value → Value)
    (i i2 : String) (r : List Value) (rest rest2 : List (List Value))
    (hrow : RowwiseTransform ext p f)
    (hlab : ∀ row, getField (f row) "label" = some (g row))
    (hi : jsonLoads i = some (r :: rest))
    (hi2 : jsonLoads i2 = some (r :: rest2))
    (_hm : (r :: rest).all (fun row => rowMatchesSchema sch row) = true)
    (_hm2 : (r :: rest2).all (fun row => rowMatchesSchema sch row) = true) :
    (run ext ⟨some p, some sch⟩ i).2 = Except.ok (g r) ∧
      (run ext ⟨some p, some sch⟩ i2).2 = (run ext ⟨some p, some sch⟩ i).2 := by
  have key : ∀ (j : String) (tail : List (List Value)),
      jsonLoads j = some (r :: tail) →
      (run ext ⟨some p, some sch⟩ j).2 = Except.ok (g r) := by
    intro j tail hj
    rw [run_loaded ext p sch j _ hj]
    unfold scoreFrame
    rw [hrow ⟨r :: tail, sch⟩]
    simp [collect, hlab]
  exact ⟨key i rest hi, (key i2 rest2 hi2).trans (key i rest hi).symm⟩

/-- Witness for C1 at a concrete row-wise pipeline and two concrete two-row
and three-row inputs sharing their first row. -/
theorem c1_first_row_label_witness :
    (run extHead ⟨some (), some schemaTwo⟩ "[[1.5,2.5],[9.0,9.0]]").2
        = Except.ok (mkRat 15 10) ∧
      (run extHead ⟨some (), some schemaTwo⟩ "[[1.5,2.5],[7.0,7.0],[8.0,8.0]]").2
        = (run extHead ⟨some (), some schemaTwo⟩ "[[1.5,2.5],[9.0,9.0]]").2 :=
  c1_first_row_label extHead () schemaTwo headLabel
    (fun row => row.headD (mkRat 0 1))
    "[[1.5,2.5],[9.0,9.0]]" "[[1.5,2.5],[7.0,7.0],[8.0,8.0]]"
    [mkRat 15 10, mkRat 25 10]
    [[mkRat 9 1, mkRat 9 1]] [[mkRat 7 1, mkRat 7 1], [mkRat 8 1, mkRat 8 1]]
    (fun _ => rfl) (fun _ => rfl) (by decide) (by decide) (by decide) (by decide)

/-- C2: with fixed, unchanged artifacts, executing `init` and then `run` on
the same input string twice — from any two starting process states — yields
the same prediction both times. -/
theorem c2_deterministic {P : Type} (ext : Externals P)
    (s t s' t' : ScoringState P) (i : String)
    (hs : init ext s = (s', none)) (ht : init ext t = (t', none)) :
    (run ext s' i).2 = (run ext t' i).2 := by
  obtain ⟨m, sch, hm, hsch, hs'⟩ := init_ok ext s s' hs
  obtain ⟨m2, sch2, hm2, hsch2, ht'⟩ := init_ok ext t t' ht
  have hmm : m = m2 := by
    have := hm.symm.trans hm2
    exact Option.some.inj this
  have hss : sch = sch2 := by
    have := hsch.symm.trans hsch2
    exact Option.some.inj this
  rw [hs', ht', hmm, hss]

/-- Witness for C2: two `init`-then-`run` executions from different starting
states at a concrete artifact store agree. -/
theorem c2_deterministic_witness :
    (run extHead ⟨some (), some schemaTwo⟩ "[[1.0,2.0]]").2
      = (run extHead ⟨some (), some schemaTwo⟩ "[[1.0,2.0]]").2 :=
  c2_deterministic extHead fresh ⟨some (), none⟩
    ⟨some (), some schemaTwo⟩ ⟨some (), some schemaTwo⟩ "[[1.0,2.0]]"
    (by decide) (by decide)

/-- C3: every implicit failure point of the adapter propagates to the caller
as an uncaught fault, never as a structured success value: a model artifact
load failure and a schema artifact load failure escape `init`, and a JSON
parse failure, a transform failure (where a schema/input mismatch would
surface), and an empty result set escape `run`. -/
theorem c3_faults_uncaught {P : Type}
    (ext1 ext2 ext3 ext4 ext5 : Externals P)
    (s1 s2 s3 : ScoringState P) (m : P) (p4 p5 : P) (sch4 sch5 : Schema)
    (i3 i4 i5 : String) (rows4 rows5 : List (List Value))
    (h1 : ext1.modelStore modelPath = none)
    (h2m : ext2.modelStore modelPath = some m)
    (h2s : ext2.schemaStore schemaPath = none)
    (h3 : jsonLoads i3 = none)
    (h4j : jsonLoads i4 = some rows4)
    (h4t : ext4.transform p4 ⟨rows4, sch4⟩ = none)
    (h5j : jsonLoads i5 = some rows5)
    (h5t : ext5.transform p5 ⟨rows5, sch5⟩ = some []) :
    init ext1 s1 = (s1, some (Fault.artifactLoad modelPath)) ∧
      (init ext2 s2).2 = some (Fault.artifactLoad schemaPath) ∧
      (run ext3 s3 i3).2 = Except.error Fault.jsonParse ∧
      (run ext4 ⟨some p4, some sch4⟩ i4).2 = Except.error Fault.transformFault ∧
      (run ext5 ⟨some p5, some sch5⟩ i5).2 = Except.error Fault.emptyResult := by
  refine ⟨?_, ?_, ?_, ?_, ?_⟩
  · unfold init; rw [h1]
  · unfold init; rw [h2m, h2s]
  · unfold run; rw [h3]
  · rw [run_loaded ext4 p4 sch4 i4 rows4 h4j]
    unfold scoreFrame; rw [h4t]
  · rw [run_loaded ext5 p5 sch5 i5 rows5 h5j]
    unfold scoreFrame; rw [h5t]; rfl

/-- Witness for C3: each of the five failure points triggered at a concrete
instance. -/
theorem c3_faults_uncaught_witness :
    init extEmpty fresh = (fresh, some (Fault.artifactLoad modelPath)) ∧
      (init extModelOnly fresh).2 = some (Fault.artifactLoad schemaPath) ∧
      (run extEmpty fresh "not json").2 = Except.error Fault.jsonParse ∧
      (run extEmpty ⟨some (), some schemaTwo⟩ "[[1.0]]").2
        = Except.error Fault.transformFault ∧
      (run extEmptyOut ⟨some (), some schemaTwo⟩ "[[1.0]]").2
        = Except.error Fault.emptyResult :=
  c3_faults_uncaught extEmpty extModelOnly extEmpty extEmpty extEmptyOut
    fresh fresh fresh () () () schemaTwo schemaTwo
    "not json" "[[1.0]]" "[[1.0]]" [[mkRat 1 1]] [[mkRat 1 1]]
    rfl (by decide) rfl (by decide) (by decide) rfl (by decide) rfl

/-- Counterexample to C4 as stated: when the model load succeeds and the
schema load fails, `init` raises yet leaves the process-wide `pipeline`
variable newly bound — a partial-init state. -/
theorem c4_partial_state_cex :
    fresh.pipeline = none ∧
      (init extModelOnly fresh).2 = some (Fault.artifactLoad schemaPath) ∧
      (init extModelOnly fresh).1.pipeline = some () := by decide

/-- C4 amended: if the model artifact load fails, `init` raises leaving the
state unchanged; but `init` is not atomic — if the model load succeeds and
the schema load fails, `init` raises with `pipeline` newly bound while
`inputSchema` is untouched. -/
theorem c4_init_failure_states {P : Type} (extA extB : Externals P)
    (sA sB : ScoringState P) (m : P)
    (hA : extA.modelStore modelPath = none)
    (hBm : extB.modelStore modelPath = some m)
    (hBs : extB.schemaStore schemaPath = none) :
    init extA sA = (sA, some (Fault.artifactLoad modelPath)) ∧
      init extB sB
        = ({ sB with pipeline := some m }, some (Fault.artifactLoad schemaPath)) := by
  constructor
  · unfold init; rw [hA]
  · unfold init; rw [hBm, hBs]

/-- Witness for the amended C4 at concrete artifact stores. -/
theorem c4_init_failure_states_witness :
    init extEmpty fresh = (fresh, some (Fault.artifactLoad modelPath)) ∧
      init extModelOnly fresh
        = ({ fresh with pipeline := some () }, some (Fault.artifactLoad schemaPath)) :=
  c4_init_failure_states extEmpty extModelOnly fresh fresh ()
    rfl (by decide) rfl

/-- Counterexample to C5 as stated: a call supplying a one-column row against
the loaded two-column schema is not rejected — `run` happily returns a
prediction produced by the transform. -/
theorem c5_mismatch_scored_cex :
    jsonLoads "[[1.0]]" = some [[mkRat 1 1]] ∧
      List.length [mkRat 1 1] ≠ schemaTwo.length ∧
      (run extHead ⟨some (), some schemaTwo⟩ "[[1.0]]").2 = Except.ok (mkRat 1 1) :=
  ⟨by decide, by decide, rfl⟩

/-- C5 amended: `run` performs no column-count check — `createDataFrame` is
invoked with verification disabled and accepts mismatched rows unchecked, so
`run` on such input behaves exactly as the transform chain does; the input is
rejected only if the opaque transform itself faults. -/
theorem c5_no_arity_check {P : Type} (ext : Externals P) (p : P) (sch : Schema)
    (i : String) (rows : List (List Value)) (hi : jsonLoads i = some rows)
    (_hbad : ∃ r ∈ rows, r.length ≠ sch.length) :
    createDataFrame rows sch none false = some ⟨rows, sch⟩ ∧
      (run ext ⟨some p, some sch⟩ i).2 = scoreFrame ext p sch rows := by
  constructor
  · simp [createDataFrame]
  · rw [run_loaded ext p sch i rows hi]

/-- Witness for the amended C5 at a concrete mismatched input. -/
theorem c5_no_arity_check_witness :
    createDataFrame [[mkRat 1 1]] schemaTwo none false
        = some ⟨[[mkRat 1 1]], schemaTwo⟩ ∧
      (run extHead ⟨some (), some schemaTwo⟩ "[[1.0]]").2
        = scoreFrame extHead () schemaTwo [[mkRat 1 1]] :=
  c5_no_arity_check extHead () schemaTwo "[[1.0]]" [[mkRat 1 1]] (by decide)
    ⟨[mkRat 1 1], by decide, by decide⟩

/-- C6: the literal sample input parses to the single 13-feature Boston
housing row, and after the artifacts are loaded, `run` on it returns the
single numeric "label" value of the transform output (the exact value is
model-dependent, fixed here only through the transform hypothesis). -/
theorem c6_sample_scalar {P : Type} (ext : Externals P) (p : P) (sch : Schema)
    (out : ScoredRow) (outs : List ScoredRow) (v : Value)
    (htr : ext.transform p ⟨[sampleRow], sch⟩ = some (out :: outs))
    (hlab : getField out "label" = some v) :
    jsonLoads sampleInput = some [sampleRow] ∧
      sampleRow.length = 13 ∧
      (run ext ⟨some p, some sch⟩ sampleInput).2 = Except.ok v := by
  refine ⟨by decide, by decide, ?_⟩
  rw [run_loaded ext p sch sampleInput [sampleRow] (by decide)]
  unfold scoreFrame
  rw [htr]
  simp [collect, hlab]

/-- Witness for C6 at a concrete loaded pipeline. -/
theorem c6_sample_scalar_witness :
    jsonLoads sampleInput = some [sampleRow] ∧
      sampleRow.length = 13 ∧
      (run extHead ⟨some (), some schemaTwo⟩ sampleInput).2
        = Except.ok (mkRat 632 100000) :=
  c6_sample_scalar extHead () schemaTwo (headLabel sampleRow) []
    (mkRat 632 100000) rfl (by decide)

/-- C7: `run` leaves the process-wide loaded state unchanged — the whole
state, and in particular the `pipeline` and `inputSchema` globals, are the
same after any call (successful or faulting) as before it. -/
theorem c7_run_frame {P : Type} (ext : Externals P) (s : ScoringState P)
    (i : String) :
    (run ext s i).1 = s ∧ (run ext s i).1.pipeline = s.pipeline ∧
      (run ext s i).1.inputSchema = s.inputSchema :=
  ⟨rfl, rfl, rfl⟩

/-- C8: saving the trained pipeline and re-initialising from the same
location loads exactly the saved pipeline, and scoring through the reloaded
state yields the same prediction as scoring with the original in-memory
pipeline on every input. -/
theorem c8_save_load_roundtrip {P : Type} (ext : Externals P) (p : P)
    (s s' : ScoringState P) (sch : Schema) (i : String)
    (hsch : ext.schemaStore schemaPath = some sch)
    (hinit : init (savePipeline p modelPath ext) s = (s', none)) :
    s' = ⟨some p, some sch⟩ ∧
      (run (savePipeline p modelPath ext) s' i).2
        = (run ext ⟨some p, some sch⟩ i).2 := by
  obtain ⟨m, sch2, hm, hsch2, hs'⟩ := init_ok _ _ _ hinit
  have hmp : some m = some p := by
    rw [← hm]; simp [savePipeline]
  have hsp : some sch2 = some sch := by
    rw [← hsch2, ← hsch]; rfl
  have h1 : s' = ⟨some p, some sch⟩ := by
    rw [hs', Option.some.inj hmp, Option.some.inj hsp]
  subst h1
  exact ⟨rfl, rfl⟩

/-- Witness for C8 at a concrete pipeline and store. -/
theorem c8_save_load_roundtrip_witness :
    (⟨some (), some schemaTwo⟩ : ScoringState Unit) = ⟨some (), some schemaTwo⟩ ∧
      (run (savePipeline () modelPath extHead) ⟨some (), some schemaTwo⟩ "[[1.0,2.0]]").2
        = (run extHead ⟨some (), some schemaTwo⟩ "[[1.0,2.0]]").2 :=
  c8_save_load_roundtrip extHead () fresh ⟨some (), some schemaTwo⟩ schemaTwo
    "[[1.0,2.0]]" (by decide) (by decide)

/-- C9: `run` constructs its input table with schema verification explicitly
disabled — `createDataFrame` with the verify flag false accepts any rows
against any schema unchecked (even rows the enabled check would reject), so
after a successful parse the call's outcome is exactly the transform chain's:
a mismatch can surface only inside `pipeline.transform`, or not at all. -/
theorem c9_verification_disabled {P : Type} (ext : Externals P) (p : P)
    (sch sch' : Schema) (rows' : List (List Value)) (sr : Option Rat)
    (i : String) (rows : List (List Value)) (hi : jsonLoads i = some rows) :
    createDataFrame rows' sch' sr false = some ⟨rows', sch'⟩ ∧
      createDataFrame [[mkRat 1 1]] schemaTwo none true = none ∧
      (run ext ⟨some p, some sch⟩ i).2 = scoreFrame ext p sch rows := by
  refine ⟨?_, by decide, ?_⟩
  · simp [createDataFrame]
  · rw [run_loaded ext p sch i rows hi]

/-- Witness for C9 at a concrete call. -/
theorem c9_verification_disabled_witness :
    createDataFrame [[mkRat 5 1]] schemaTwo none false
        = some ⟨[[mkRat 5 1]], schemaTwo⟩ ∧
      createDataFrame [[mkRat 1 1]] schemaTwo none true = none ∧
      (run extHead ⟨some (), some schemaTwo⟩ "[[1.0]]").2
        = scoreFrame extHead () schemaTwo [[mkRat 1 1]] :=
  c9_verification_disabled extHead () schemaTwo schemaTwo [[mkRat 5 1]] none
    "[[1.0]]" [[mkRat 1 1]] (by decide)

/-- Counterexample to C10 as stated: in a fresh process where `init` never
ran, a `run` call on a malformed input string fails with the JSON parse
fault, not with a name-resolution error. -/
theorem c10_not_name_error_cex :
    (run extEmpty fresh "not json").2 = Except.error Fault.jsonParse ∧
      Fault.jsonParse ≠ Fault.nameError "inputSchema" ∧
      Fault.jsonParse ≠ Fault.nameError "pipeline" :=
  ⟨rfl, by decide, by decide⟩

/-- C10 amended: in any process state where `inputSchema` is unbound (as
whenever `init` has not completed successfully), `run` on an input string
that parses as JSON fails with an uncaught `NameError` at the schema lookup;
and `run` never binds the globals itself. -/
theorem c10_uninit_name_error {P : Type} (ext : Externals P)
    (s : ScoringState P) (i : String) (rows : List (List Value))
    (hs : s.inputSchema = none) (hi : jsonLoads i = some rows) :
    (run ext s i).2 = Except.error (Fault.nameError "inputSchema") ∧
      (run ext s i).1 = s := by
  refine ⟨?_, rfl⟩
  unfold run
  rw [hi, hs]

/-- Witness for the amended C10 at the fresh process state. -/
theorem c10_uninit_name_error_witness :
    (run extEmpty fresh "[[1.0]]").2 = Except.error (Fault.nameError "inputSchema") ∧
      (run extEmpty fresh "[[1.0]]").1 = fresh :=
  c10_uninit_name_error extEmpty fresh "[[1.0]]" [[mkRat 1 1]] rfl (by decide)

end RealtimeScoring
